import Mathlib

/-!
Verification of the interview answer-scoring engine (`answer_analyzer.py`).

The analyzers are embedded as Lean functions over rationals.  External NLP
collaborators (NLTK word/sentence tokenization, the NLTK stop-word set, the
VADER sentiment model, TextBlob polarity/subjectivity, and the stdlib regex
engine used for the stutter pattern) are modelled as an explicit environment
`NLPEnv` that every analyzer takes as a parameter; everything else (substring
counting, filler lists, scoring arithmetic, clamping, rounding) is translated
directly from the source.  Python floats are modelled as exact rationals and
`round(x, n)` as round-half-to-even on `x * 10^n`.
-/

namespace InterviewAnalysis

/-- Python `round` rounds halves to the nearest even integer. -/
def roundHalfEven (q : ℚ) : ℤ :=
  if q - ⌊q⌋ < 1/2 then ⌊q⌋
  else if 1/2 < q - ⌊q⌋ then ⌊q⌋ + 1
  else if ⌊q⌋ % 2 = 0 then ⌊q⌋ else ⌊q⌋ + 1

/-- Python `round(q, n)`. -/
def pyRound (q : ℚ) (n : ℕ) : ℚ :=
  (roundHalfEven (q * 10 ^ n) : ℚ) / 10 ^ n

/-- The whitespace characters stripped by Python `str.strip()` (ASCII range). -/
def pyIsSpace (c : Char) : Bool :=
  c = ' ' || c = '\t' || c = '\n' || c = '\x0d' || c = '\x0b' || c = '\x0c'

/-- Source guard `not answer or not answer.strip()`: empty or whitespace-only. -/
def isBlank (s : String) : Bool :=
  s.toList.all pyIsSpace

/-- Python `str.isalpha()` (ASCII letters). -/
def pyIsAlpha (s : String) : Bool :=
  !s.toList.isEmpty && s.toList.all Char.isAlpha

/-- Python `str.lower()` on one character (ASCII range). -/
def pyLowerChar (c : Char) : Char :=
  if 'A' ≤ c ∧ c ≤ 'Z' then Char.ofNat (c.toNat + 32) else c

/-- Python `str.lower()` (ASCII range). -/
def pyLower (s : String) : String :=
  String.mk (s.toList.map pyLowerChar)

/-- Non-overlapping occurrence count on character lists, scanning left to
right, as Python `str.count` does (only used with non-empty patterns).  The
fuel argument, instantiated with the text length, keeps the recursion
structural. -/
def countSubFuel (pat : List Char) : Nat → List Char → Nat
  | 0, _ => 0
  | _ + 1, [] => 0
  | fuel + 1, c :: rest =>
    if pat.isPrefixOf (c :: rest) then
      countSubFuel pat fuel (rest.drop (pat.length - 1)) + 1
    else
      countSubFuel pat fuel rest

/-- Python `s.count(sub)` for non-empty `sub`. -/
def pyCount (s sub : String) : Nat :=
  countSubFuel sub.toList s.toList.length s.toList

/-- Python substring membership `sub in s` (for non-empty `sub`). -/
def pyIn (sub s : String) : Bool :=
  pyCount s sub != 0

/-- External NLP collaborators consumed by the analyzer: tokenizers, the
stop-word set, the VADER and TextBlob sentiment models, and the regex count
of the stutter pattern `\b(\w+)\s+\1\b` (via `re.findall`). -/
structure NLPEnv where
  word_tokenize : String → List String
  sent_tokenize : String → List String
  stop_words : String → Bool
  vader_pos : String → ℚ
  vader_neg : String → ℚ
  vader_neu : String → ℚ
  blob_polarity : String → ℚ
  blob_subjectivity : String → ℚ
  findall_stutter : String → ℕ

/-- Optional video signal: the three keys read from `video_data` (each read
with `.get` and a default).  `none` at the call site models a falsy
(`None` or empty-dict) `video_data`. -/
structure VideoData where
  eye_contact_percentage : Option ℚ
  dominant_emotion : Option String
  engagement_score : Option ℚ
deriving DecidableEq

/-- Output dict of `_analyze_text_metrics`; the empty analysis keeps only
`word_count`, so the other keys are optional. -/
structure TextMetrics where
  word_count : ℕ
  sentence_count : Option ℕ
  content_word_count : Option ℕ
  avg_word_length : Option ℚ
  avg_sentence_length : Option ℚ
  unique_words : Option ℕ
  vocabulary_richness : Option ℚ
deriving DecidableEq

/-- Output dict of `_analyze_content_quality`. -/
structure ContentQuality where
  quality_score : ℚ
  has_specific_examples : Option Bool
  has_quantifiable_results : Option Bool
  has_numbers : Option Bool
  uses_star_method : Option Bool
deriving DecidableEq

/-- Output dict of `_analyze_sentiment`. -/
structure Sentiment where
  polarity : Option ℚ
  subjectivity : Option ℚ
  positive_score : Option ℚ
  negative_score : Option ℚ
  neutral_score : Option ℚ
  confidence_level : ℚ
  enthusiasm_score : Option ℚ
deriving DecidableEq

/-- Output dict of `_analyze_relevance`. -/
structure Relevance where
  relevance_score : ℚ
  keyword_overlap : Option ℕ
  directly_addresses_question : Option Bool
deriving DecidableEq

/-- Output dict of `_analyze_clarity`. -/
structure Clarity where
  clarity_score : ℚ
  has_structure : Option Bool
  transition_words : Option ℕ
deriving DecidableEq

/-- Output dict of `_analyze_professionalism`. -/
structure Professionalism where
  professionalism_score : ℚ
  professional_language : Option ℕ
  casual_language : Option ℕ
deriving DecidableEq

/-- Output dict of `_analyze_speech_features`; the empty analysis keeps only
`fluency_score`. -/
structure SpeechFeatures where
  filler_word_count : Option ℕ
  speaking_rate : Option ℚ
  repetitions : Option ℕ
  stuttering_instances : Option ℕ
  pause_indicators : Option ℕ
  fluency_score : ℚ
  speaking_pace : Option String
deriving DecidableEq

/-- Facial-expression dict.  All keys are optional because the three code
paths populate different key sets: the no-signal defaults dict, the
video-derived dict, and the empty analysis (`confidence_level` only). -/
structure Facial where
  confidence_level : Option ℚ
  nervousness : Option String
  eye_contact : Option String
  expressions : Option String
  eye_contact_percentage : Option ℚ
  dominant_emotion : Option String
  engagement_score : Option ℚ
deriving DecidableEq

/-- The empty dict `{}` stored under `facial_expressions` when no video
signal is supplied. -/
def facialEmpty : Facial :=
  { confidence_level := none, nervousness := none, eye_contact := none,
    expressions := none, eye_contact_percentage := none,
    dominant_emotion := none, engagement_score := none }

/-- The analysis bundle returned by `analyze_answer`.  `speech_features` and
`facial_expressions` are optional because `_calculate_overall_score` reads
them with `analysis.get(key, {})`. -/
structure Analysis where
  text_metrics : TextMetrics
  content_quality : ContentQuality
  sentiment : Sentiment
  relevance : Relevance
  clarity : Clarity
  professionalism : Professionalism
  speech_features : Option SpeechFeatures
  facial_expressions : Option Facial
  overall_score : ℚ
deriving DecidableEq

/-- Filler list `self.filler_words` from `AnswerAnalyzer.__init__`. -/
def filler_words : List String :=
  ["um", "uh", "like", "you know", "sort of", "kind of",
   "i mean", "actually", "basically", "literally", "seriously",
   "honestly", "right", "okay", "so", "well", "yeah"]

/-- Function `_get_speaking_pace`: categorize speaking pace. -/
def _get_speaking_pace (rate : ℚ) : String :=
  if rate = 0 then "unknown"
  else if rate < 100 then "too slow"
  else if rate < 130 then "slow"
  else if rate < 160 then "optimal"
  else if rate < 190 then "fast"
  else "too fast"

/-- Function `_analyze_speech_features`: speech patterns and fluency. -/
def _analyze_speech_features (env : NLPEnv) (text : String) (duration : ℚ) :
    SpeechFeatures :=
  let words := env.word_tokenize (pyLower text)
  let text_lower := pyLower text
  let filler_count := (filler_words.map (fun filler => pyCount text_lower filler)).sum
  let speaking_rate : ℚ := if 0 < duration then ((words.length : ℚ) / duration) * 60 else 0
  let freq_words := words.filter (fun w => pyIsAlpha w && 3 < w.length)
  let repetitions := (freq_words.dedup.filter (fun w => 2 < freq_words.count w)).length
  let pause_indicators := pyCount text "..." + pyCount text ".."
  let stutters := env.findall_stutter text_lower
  let f1 : ℚ := 100 - min ((filler_count : ℚ) * 5) 30
  let f2 : ℚ := f1 - min ((stutters : ℚ) * 10) 20
  let f3 : ℚ := f2 - min ((pause_indicators : ℚ) * 5) 15
  let f4 : ℚ :=
    if 0 < speaking_rate then
      if speaking_rate < 100 then f3 - 10
      else if 200 < speaking_rate then f3 - 10
      else f3
    else f3
  let fluency := max 0 (min 100 f4)
  { filler_word_count := some filler_count,
    speaking_rate := some (pyRound speaking_rate 1),
    repetitions := some repetitions,
    stuttering_instances := some stutters,
    pause_indicators := some pause_indicators,
    fluency_score := fluency,
    speaking_pace := some (_get_speaking_pace speaking_rate) }

/-- Function `_analyze_facial_expressions`: `none` models a falsy `video_data`. -/
def _analyze_facial_expressions (video_data : Option VideoData) : Facial :=
  match video_data with
  | none =>
    { confidence_level := some 70, nervousness := some "moderate",
      eye_contact := some "good", expressions := some "neutral",
      eye_contact_percentage := none, dominant_emotion := none,
      engagement_score := none }
  | some vd =>
    let eye_contact_pct := vd.eye_contact_percentage.getD 60
    let dominant_emotion := vd.dominant_emotion.getD "neutral"
    let engagement := vd.engagement_score.getD 70
    let nervousness :=
      if engagement < 50 then "high"
      else if engagement < 70 then "moderate"
      else "low"
    let confidence0 :=
      if dominant_emotion = "happy" || dominant_emotion = "focused" then engagement + 10
      else if dominant_emotion = "sad" || dominant_emotion = "worried" then engagement - 10
      else engagement
    let confidence := max 0 (min 100 confidence0)
    let eye_contact_quality :=
      if 70 < eye_contact_pct then "excellent"
      else if 50 < eye_contact_pct then "good"
      else "needs improvement"
    { confidence_level := some (pyRound confidence 1),
      nervousness := some nervousness,
      eye_contact := some eye_contact_quality,
      expressions := none,
      eye_contact_percentage := some (pyRound eye_contact_pct 1),
      dominant_emotion := some dominant_emotion,
      engagement_score := some (pyRound engagement 1) }

/-- Function `_analyze_text_metrics`: basic text statistics. -/
def _analyze_text_metrics (env : NLPEnv) (text : String) : TextMetrics :=
  let words := env.word_tokenize (pyLower text)
  let sentences := env.sent_tokenize text
  let content_words := words.filter (fun w => pyIsAlpha w && !env.stop_words w)
  let avg_word_length : ℚ :=
    if content_words.length ≠ 0 then
      ((content_words.map String.length).sum : ℚ) / content_words.length
    else 0
  let avg_sentence_length : ℚ :=
    if sentences.length ≠ 0 then (words.length : ℚ) / sentences.length else 0
  { word_count := words.length,
    sentence_count := some sentences.length,
    content_word_count := some content_words.length,
    avg_word_length := some (pyRound avg_word_length 2),
    avg_sentence_length := some (pyRound avg_sentence_length 2),
    unique_words := some content_words.dedup.length,
    vocabulary_richness := some (if content_words.length ≠ 0 then
      pyRound ((content_words.dedup.length : ℚ) / content_words.length) 3 else 0) }

/-- Phrase lists of `_analyze_content_quality`. -/
def example_phrases : List String :=
  ["for example", "for instance", "such as", "like when", "specifically"]

def quantification_words : List String :=
  ["increased", "decreased", "improved", "reduced", "achieved",
   "percent", "%", "times", "doubled", "tripled"]

def situation_words : List String := ["situation", "context", "background"]

def task_words : List String := ["task", "goal", "objective", "challenge"]

def action_words : List String := ["action", "did", "implemented", "developed"]

def result_words : List String := ["result", "outcome", "impact", "achievement"]

/-- Function `_analyze_content_quality`: content quality and specificity (the
`question` argument is unused in the source as well). -/
def _analyze_content_quality (text _question : String) : ContentQuality :=
  let text_lower := pyLower text
  let has_numbers := text.toList.any Char.isDigit
  let has_examples := example_phrases.any (fun p => pyIn p text_lower)
  let has_quantification := quantification_words.any (fun p => pyIn p text_lower)
  let has_situation := situation_words.any (fun p => pyIn p text_lower)
  let has_task := task_words.any (fun p => pyIn p text_lower)
  let has_action := action_words.any (fun p => pyIn p text_lower)
  let has_result := result_words.any (fun p => pyIn p text_lower)
  let quality_score : ℚ := min 100 (50 +
    (if has_numbers then 10 else 0) +
    (if has_examples then 15 else 0) +
    (if has_quantification then 15 else 0) +
    (if has_situation then 5 else 0) +
    (if has_task then 5 else 0) +
    (if has_action then 5 else 0) +
    (if has_result then 10 else 0))
  { quality_score := quality_score,
    has_specific_examples := some has_examples,
    has_quantifiable_results := some has_quantification,
    has_numbers := some has_numbers,
    uses_star_method := some (has_situation && has_task && has_action && has_result) }

/-- Function `_analyze_sentiment`: sentiment and confidence, over the external
VADER/TextBlob signals. -/
def _analyze_sentiment (env : NLPEnv) (text : String) : Sentiment :=
  let pos := env.vader_pos text
  let neg := env.vader_neg text
  let neu := env.vader_neu text
  let confidence := max 0 (min 100 (50 + pos * 50 - neg * 30))
  { polarity := some (pyRound (env.blob_polarity text) 3),
    subjectivity := some (pyRound (env.blob_subjectivity text) 3),
    positive_score := some (pyRound pos 3),
    negative_score := some (pyRound neg 3),
    neutral_score := some (pyRound neu 3),
    confidence_level := pyRound confidence 1,
    enthusiasm_score := some (pyRound (pos * 100) 1) }

/-- Content-word set used by `_analyze_relevance` (tokenize the lowercased
text, keep alphabetic non-stop-word tokens, as a set). -/
def relevanceWordSet (env : NLPEnv) (text : String) : Finset String :=
  ((env.word_tokenize (pyLower text)).filter
    (fun w => pyIsAlpha w && !env.stop_words w)).toFinset

/-- Function `_analyze_relevance`: answer relevance to question. -/
def _analyze_relevance (env : NLPEnv) (answer question : String) : Relevance :=
  let answer_words := relevanceWordSet env answer
  let question_words := relevanceWordSet env question
  let overlap := (answer_words ∩ question_words).card
  let relevance0 : ℚ :=
    if question_words.card ≠ 0 then ((overlap : ℚ) / question_words.card) * 100 else 50
  let relevance := min 100 (relevance0 * (3/2))
  { relevance_score := pyRound relevance 1,
    keyword_overlap := some overlap,
    directly_addresses_question :=
      some (decide ((question_words.card : ℚ) * (3/10) ≤ (overlap : ℚ))) }

/-- Transition-word list of `_analyze_clarity`. -/
def transitions : List String :=
  ["first", "second", "then", "next", "finally", "additionally",
   "moreover", "however", "therefore", "consequently"]

/-- Function `_analyze_clarity`: clarity and structure. -/
def _analyze_clarity (env : NLPEnv) (text : String) : Clarity :=
  let text_lower := pyLower text
  let transition_count : ℕ := (transitions.map (fun t => if pyIn t text_lower then 1 else 0)).sum
  let base : ℚ := 60 + min ((transition_count : ℚ) * 8) 24
  let sentences := env.sent_tokenize text
  let avg_sentence_length : ℚ :=
    if sentences.length ≠ 0 then
      ((env.word_tokenize text).length : ℚ) / sentences.length
    else 0
  let adjusted : ℚ :=
    if 10 < avg_sentence_length ∧ avg_sentence_length < 25 then base + 16
    else if avg_sentence_length < 5 then base - 10
    else base
  let clarity_score := max 0 (min 100 adjusted)
  { clarity_score := clarity_score,
    has_structure := some (decide (0 < transition_count)),
    transition_words := some transition_count }

/-- Phrase lists of `_analyze_professionalism`. -/
def professional_phrases : List String :=
  ["experience", "responsible for", "achieved", "developed",
   "implemented", "collaborated", "managed", "led", "initiated"]

def casual_words : List String :=
  ["gonna", "wanna", "kinda", "sorta", "yeah", "stuff", "things", "like"]

/-- Function `_analyze_professionalism`: professional vs. casual vocabulary. -/
def _analyze_professionalism (text : String) : Professionalism :=
  let text_lower := pyLower text
  let professional_count : ℕ :=
    (professional_phrases.map (fun p => if pyIn p text_lower then 1 else 0)).sum
  let casual_count : ℕ :=
    (casual_words.map (fun w => if pyIn w text_lower then 1 else 0)).sum
  let prof_score : ℚ :=
    max 0 (min 100 (70 + (professional_count : ℚ) * 5 - (casual_count : ℚ) * 10))
  { professionalism_score := prof_score,
    professional_language := some professional_count,
    casual_language := some casual_count }

/-- The `weights` dict of `_calculate_overall_score`. -/
def overallWeights : List (String × ℚ) :=
  [("content_quality", 25/100), ("relevance", 20/100), ("clarity", 15/100),
   ("sentiment", 10/100), ("professionalism", 10/100), ("speech", 15/100),
   ("facial", 5/100)]

/-- The `scores` dict of `_calculate_overall_score`: missing speech/facial
sub-bundles (or a facial bundle without `confidence_level`) default to 70. -/
def bundleScore (analysis : Analysis) (key : String) : ℚ :=
  if key = "content_quality" then analysis.content_quality.quality_score
  else if key = "relevance" then analysis.relevance.relevance_score
  else if key = "clarity" then analysis.clarity.clarity_score
  else if key = "sentiment" then analysis.sentiment.confidence_level
  else if key = "professionalism" then analysis.professionalism.professionalism_score
  else if key = "speech" then
    match analysis.speech_features with
    | none => 70
    | some speech => speech.fluency_score
  else if key = "facial" then
    match analysis.facial_expressions with
    | none => 70
    | some facial => facial.confidence_level.getD 70
  else 0

/-- Function `_calculate_overall_score`: weighted overall score. -/
def _calculate_overall_score (analysis : Analysis) : ℚ :=
  pyRound ((overallWeights.map (fun kw => bundleScore analysis kw.1 * kw.2)).sum) 1

/-- Function `_get_empty_analysis`: the zeroed placeholder bundle. -/
def _get_empty_analysis : Analysis :=
  { text_metrics :=
      { word_count := 0, sentence_count := none, content_word_count := none,
        avg_word_length := none, avg_sentence_length := none,
        unique_words := none, vocabulary_richness := none },
    content_quality :=
      { quality_score := 0, has_specific_examples := none,
        has_quantifiable_results := none, has_numbers := none,
        uses_star_method := none },
    sentiment :=
      { polarity := none, subjectivity := none, positive_score := none,
        negative_score := none, neutral_score := none, confidence_level := 0,
        enthusiasm_score := none },
    relevance :=
      { relevance_score := 0, keyword_overlap := none,
        directly_addresses_question := none },
    clarity :=
      { clarity_score := 0, has_structure := none, transition_words := none },
    professionalism :=
      { professionalism_score := 0, professional_language := none,
        casual_language := none },
    speech_features := some
      { filler_word_count := none, speaking_rate := none, repetitions := none,
        stuttering_instances := none, pause_indicators := none,
        fluency_score := 0, speaking_pace := none },
    facial_expressions := some { facialEmpty with confidence_level := some 0 },
    overall_score := 0 }

/-- The `analysis` dict of `analyze_answer` as first constructed, before the
`overall_score` entry is overwritten.  A falsy `video_data` stores the empty
dict under `facial_expressions` without calling the facial scorer. -/
def analysisBase (env : NLPEnv) (answer question : String)
    (video_data : Option VideoData) (audio_duration : ℚ) : Analysis :=
  { text_metrics := _analyze_text_metrics env answer,
    content_quality := _analyze_content_quality answer question,
    sentiment := _analyze_sentiment env answer,
    relevance := _analyze_relevance env answer question,
    clarity := _analyze_clarity env answer,
    professionalism := _analyze_professionalism answer,
    speech_features := some (_analyze_speech_features env answer audio_duration),
    facial_expressions := some
      (if video_data.isSome then _analyze_facial_expressions video_data
       else facialEmpty),
    overall_score := 0 }

/-- Function `analyze_answer`: the full pipeline — short-circuit on blank
input, otherwise build the analysis dict and then fill in `overall_score`. -/
def analyze_answer (env : NLPEnv) (answer question : String)
    (video_data : Option VideoData) (audio_duration : ℚ) : Analysis :=
  if isBlank answer then _get_empty_analysis
  else
    { analysisBase env answer question video_data audio_duration with
      overall_score :=
        _calculate_overall_score (analysisBase env answer question video_data audio_duration) }

/-- Dictionary access `dict[key]`: raises `KeyError` when the key is missing. -/
def req {α : Type} (field : Option α) (key : String) : Except String α :=
  match field with
  | none => Except.error ("KeyError: " ++ key)
  | some v => Except.ok v

/-- The final two statements of `get_feedback`: fall back to one
encouragement string when no rule fired, then keep the first 5 items. -/
def truncateFeedback (feedback : List String) : List String :=
  (if feedback.isEmpty then ["Excellent answer! Keep up the great work!"]
   else feedback).take 5

/-- Function `get_feedback`: ordered feedback rules.  The `Except` monad models the
`KeyError` raised by the square-bracket dictionary accesses. -/
def get_feedback (analysis : Analysis) : Except String (List String) := do
  let content := analysis.content_quality
  let fb1 := if !(content.has_specific_examples.getD false) then
      ["Add specific examples from your experience to illustrate your points"] else []
  let fb2 := if !(content.has_quantifiable_results.getD false) then
      ["Include measurable results (percentages, numbers, metrics) to demonstrate impact"] else []
  let fb3 := if content.quality_score < 60 then
      ["Provide more detailed responses with concrete details and outcomes"] else []
  let speechFb ← match analysis.speech_features with
    | none => pure ([] : List String)
    | some speech => do
      let filler ← req speech.filler_word_count "filler_word_count"
      let sfb1 := if 3 < filler then
          ["Reduce filler words (found " ++ toString filler ++
           " instances of \x27um\x27, \x27uh\x27, \x27like\x27)"] else []
      let stut ← req speech.stuttering_instances "stuttering_instances"
      let sfb2 := if 0 < stut then
          ["Practice your answers to reduce stuttering and improve fluency"] else []
      let pace ← req speech.speaking_pace "speaking_pace"
      let sfb3 := if pace = "too slow" || pace = "too fast" then
          ["Adjust your speaking pace (currently " ++ pace ++ ") to 130-160 words/minute"] else []
      pure (sfb1 ++ sfb2 ++ sfb3)
  let facialFb := match analysis.facial_expressions with
    | none => []
    | some facial =>
      (if facial.eye_contact_percentage.getD 100 < 50 then
          ["Maintain better eye contact with the camera (look directly at it)"] else []) ++
      (if facial.nervousness = some "high" then
          ["Try to relax and appear more confident - take deep breaths before answering"] else []) ++
      (if facial.engagement_score.getD 100 < 60 then
          ["Show more enthusiasm and engagement through your facial expressions"] else [])
  let fb4 := if analysis.relevance.relevance_score < 60 then
      ["Ensure your answer directly addresses what was asked in the question"] else []
  let fb5 := if analysis.clarity.clarity_score < 60 then
      ["Structure your answer better using transitions (first, then, finally)"] else []
  let fb6 := if analysis.professionalism.professionalism_score < 60 then
      ["Use more professional language and avoid casual expressions"] else []
  let word_count := analysis.text_metrics.word_count
  let fb7 := if word_count < 30 then
      ["Provide longer, more detailed answers (aim for 50-150 words)"]
    else if 200 < word_count then
      ["Keep answers more concise and focused on key points"] else []
  pure (truncateFeedback (fb1 ++ fb2 ++ fb3 ++ speechFb ++ facialFb ++ fb4 ++ fb5 ++ fb6 ++ fb7))

/-- A concrete instantiation of the external NLP collaborators, used to
evaluate the model on sample inputs: whitespace word tokenization, the whole
text as one sentence, a small stop-word list, a neutral sentiment model, and
an adjacent-duplicate-word stutter counter. -/
def splitWordsAux (acc : List Char) : List Char → List String
  | [] => if acc.isEmpty then [] else [String.mk acc.reverse]
  | c :: rest =>
    if c = ' ' then
      if acc.isEmpty then splitWordsAux [] rest
      else String.mk acc.reverse :: splitWordsAux [] rest
    else splitWordsAux (c :: acc) rest

def splitWords (s : String) : List String :=
  splitWordsAux [] s.toList

def countAdjacentRepeats : List String → ℕ
  | [] => 0
  | [_] => 0
  | a :: b :: rest => (if a = b then 1 else 0) + countAdjacentRepeats (b :: rest)

def sampleStopWords : List String :=
  ["the", "is", "a", "an", "your", "with", "what", "of", "to", "and", "i", "my"]

def sampleEnv : NLPEnv :=
  { word_tokenize := splitWords,
    sent_tokenize := fun s => if isBlank s then [] else [s],
    stop_words := fun w => sampleStopWords.contains w,
    vader_pos := fun _ => 0,
    vader_neg := fun _ => 0,
    vader_neu := fun _ => 1,
    blob_polarity := fun _ => 0,
    blob_subjectivity := fun _ => 0,
    findall_stutter := fun s => countAdjacentRepeats (splitWords s) }

/-- Predicate of claim C1: every designated score field of the bundle (the
content quality score, relevance, clarity, sentiment confidence,
professionalism, speech fluency, facial confidence, and the overall score)
lies in the closed interval from 0 to 100. -/
def scoreFieldsInRange (a : Analysis) : Prop :=
  (0 ≤ a.content_quality.quality_score ∧ a.content_quality.quality_score ≤ 100) ∧
  (0 ≤ a.relevance.relevance_score ∧ a.relevance.relevance_score ≤ 100) ∧
  (0 ≤ a.clarity.clarity_score ∧ a.clarity.clarity_score ≤ 100) ∧
  (0 ≤ a.sentiment.confidence_level ∧ a.sentiment.confidence_level ≤ 100) ∧
  (0 ≤ a.professionalism.professionalism_score ∧
    a.professionalism.professionalism_score ≤ 100) ∧
  (∀ sp, a.speech_features = some sp →
    0 ≤ sp.fluency_score ∧ sp.fluency_score ≤ 100) ∧
  (∀ f c, a.facial_expressions = some f → f.confidence_level = some c →
    0 ≤ c ∧ c ≤ 100) ∧
  (0 ≤ a.overall_score ∧ a.overall_score ≤ 100)

/-- Predicate of claim C3: the bundle has every designated score field equal
to 0 and overall score 0. -/
def zeroedBundle (a : Analysis) : Prop :=
  a.content_quality.quality_score = 0 ∧
  a.relevance.relevance_score = 0 ∧
  a.clarity.clarity_score = 0 ∧
  a.sentiment.confidence_level = 0 ∧
  a.professionalism.professionalism_score = 0 ∧
  (∀ sp, a.speech_features = some sp → sp.fluency_score = 0) ∧
  (∀ f, a.facial_expressions = some f → f.confidence_level = some 0) ∧
  a.overall_score = 0

/-- The overall-score formula as the spec states it: a weighted sum of the
seven designated sub-scores (weights .25, .20, .15, .10, .10, .15, .05),
with a missing speech or facial score replaced by the neutral default 70,
rounded to 1 decimal. -/
def specOverallFormula (a : Analysis) : ℚ :=
  pyRound
    ((25/100) * a.content_quality.quality_score +
     (20/100) * a.relevance.relevance_score +
     (15/100) * a.clarity.clarity_score +
     (10/100) * a.sentiment.confidence_level +
     (10/100) * a.professionalism.professionalism_score +
     (15/100) * (match a.speech_features with
                 | none => (70 : ℚ)
                 | some sp => sp.fluency_score) +
     (5/100) * (match a.facial_expressions with
                | none => (70 : ℚ)
                | some f => f.confidence_level.getD 70)) 1

/-- A bundle whose seven designated sub-scores are all 80 (the spec's
weighted-sum test vector). -/
def allEightyBundle : Analysis :=
  { text_metrics :=
      { word_count := 80, sentence_count := none, content_word_count := none,
        avg_word_length := none, avg_sentence_length := none,
        unique_words := none, vocabulary_richness := none },
    content_quality :=
      { quality_score := 80, has_specific_examples := none,
        has_quantifiable_results := none, has_numbers := none,
        uses_star_method := none },
    sentiment :=
      { polarity := none, subjectivity := none, positive_score := none,
        negative_score := none, neutral_score := none, confidence_level := 80,
        enthusiasm_score := none },
    relevance :=
      { relevance_score := 80, keyword_overlap := none,
        directly_addresses_question := none },
    clarity :=
      { clarity_score := 80, has_structure := none, transition_words := none },
    professionalism :=
      { professionalism_score := 80, professional_language := none,
        casual_language := none },
    speech_features := some
      { filler_word_count := none, speaking_rate := none, repetitions := none,
        stuttering_instances := none, pause_indicators := none,
        fluency_score := 80, speaking_pace := none },
    facial_expressions := some { facialEmpty with confidence_level := some 80 },
    overall_score := 0 }

/-- The fluency deduction formula as claim C6 states it: 100 minus the three
capped deductions, minus 10 when the rate is known (duration positive) and
below 100 words per minute, minus 10 when known and above 200, clamped to
the interval from 0 to 100. -/
def specFluencyFormula (env : NLPEnv) (text : String) (duration : ℚ) : ℚ :=
  max 0 (min 100
    (100
      - min (((filler_words.map (fun f => pyCount (pyLower text) f)).sum : ℚ) * 5) 30
      - min ((env.findall_stutter (pyLower text) : ℚ) * 10) 20
      - min (((pyCount text "..." + pyCount text ".." : ℕ) : ℚ) * 5) 15
      - (if 0 < duration ∧
            ((env.word_tokenize (pyLower text)).length : ℚ) / duration * 60 < 100
         then 10 else 0)
      - (if 0 < duration ∧
            200 < ((env.word_tokenize (pyLower text)).length : ℚ) / duration * 60
         then 10 else 0)))

/-- The transition count as claim C8 reads: the total number of
case-insensitive substring occurrences of transition words in the text,
counted with multiplicity. -/
def specTransitionOccurrences (text : String) : ℕ :=
  (transitions.map (fun t => pyCount (pyLower text) t)).sum

/-- The clarity score as claim C8, amended, states it: base 60 plus the
capped transition bonus computed from the number of *distinct* transition
words present, plus 16 when the average sentence length lies strictly
between 10 and 25, minus 10 when it is below 5, clamped to [0, 100]. -/
def specClarityScore (env : NLPEnv) (text : String) : ℚ :=
  let count := transitions.countP (fun t => pyIn t (pyLower text))
  let sentences := env.sent_tokenize text
  let avg : ℚ :=
    if sentences.length ≠ 0 then ((env.word_tokenize text).length : ℚ) / sentences.length
    else 0
  max 0 (min 100 (60 + min ((count : ℚ) * 8) 24 +
    (if 10 < avg ∧ avg < 25 then 16 else if avg < 5 then -10 else 0)))

/-! Helper lemmas about rounding, clamping and feedback truncation. -/

lemma roundHalfEven_nonneg {q : ℚ} (h : 0 ≤ q) : 0 ≤ roundHalfEven q := by
  have hf : 0 ≤ ⌊q⌋ := Int.floor_nonneg.mpr h
  unfold roundHalfEven
  split_ifs <;> omega

lemma roundHalfEven_le {q : ℚ} {n : ℤ} (h : q ≤ (n : ℚ)) : roundHalfEven q ≤ n := by
  have hf : ⌊q⌋ ≤ n := by
    have := Int.floor_le_floor h
    simpa using this
  have hfq : (⌊q⌋ : ℚ) ≤ q := Int.floor_le q
  unfold roundHalfEven
  split_ifs with h1 h2 h3
  · exact hf
  · have hlt : (⌊q⌋ : ℚ) < (n : ℚ) := by linarith
    have : ⌊q⌋ < n := by exact_mod_cast hlt
    omega
  · exact hf
  · have hr : q - (⌊q⌋ : ℚ) = 1/2 := le_antisymm (not_lt.mp h2) (not_lt.mp h1)
    have hlt : (⌊q⌋ : ℚ) < (n : ℚ) := by linarith
    have : ⌊q⌋ < n := by exact_mod_cast hlt
    omega

lemma pyRound_nonneg {q : ℚ} {n : ℕ} (h : 0 ≤ q) : 0 ≤ pyRound q n := by
  unfold pyRound
  have hp : (0:ℚ) < 10 ^ n := by positivity
  have h0 : 0 ≤ roundHalfEven (q * 10 ^ n) :=
    roundHalfEven_nonneg (mul_nonneg h hp.le)
  have : (0:ℚ) ≤ (roundHalfEven (q * 10 ^ n) : ℚ) := by exact_mod_cast h0
  positivity

lemma pyRound_le_hundred {q : ℚ} (n : ℕ) (h : q ≤ 100) : pyRound q n ≤ 100 := by
  have hp : (0:ℚ) < 10 ^ n := by positivity
  have h1 : q * 10 ^ n ≤ ((100 * 10 ^ n : ℤ) : ℚ) := by
    push_cast
    nlinarith
  have h2 := roundHalfEven_le h1
  unfold pyRound
  rw [div_le_iff₀ hp]
  calc (roundHalfEven (q * 10 ^ n) : ℚ) ≤ ((100 * 10 ^ n : ℤ) : ℚ) := by exact_mod_cast h2
    _ = 100 * 10 ^ n := by push_cast; ring

lemma clamp_nonneg (x : ℚ) : 0 ≤ max 0 (min 100 x) := le_max_left 0 _

lemma clamp_le_hundred (x : ℚ) : max 0 (min 100 x) ≤ 100 :=
  max_le (by norm_num) (min_le_left _ _)

lemma truncateFeedback_bounds (l : List String) :
    1 ≤ (truncateFeedback l).length ∧ (truncateFeedback l).length ≤ 5 := by
  unfold truncateFeedback
  split_ifs with h
  · simp
  · have hne : l ≠ [] := by simpa [List.isEmpty_iff] using h
    have hpos : 0 < l.length := List.length_pos.mpr hne
    rw [List.length_take]
    omega

lemma sum_ite_one_eq_countP (p : String → Bool) (l : List String) :
    (l.map (fun t => if p t then (1:ℕ) else 0)).sum = l.countP p := by
  induction l with
  | nil => simp
  | cons a l ih =>
    by_cases h : p a <;> simp [List.countP_cons, h, ih, Nat.add_comm]

/-! Range lemmas for each analyzer's designated score field. -/

lemma contentQuality_bounds (text question : String) :
    0 ≤ (_analyze_content_quality text question).quality_score ∧
    (_analyze_content_quality text question).quality_score ≤ 100 := by
  unfold _analyze_content_quality
  refine ⟨le_min (by norm_num) ?_, min_le_left _ _⟩
  split_ifs <;> norm_num

lemma relevance_bounds (env : NLPEnv) (answer question : String) :
    0 ≤ (_analyze_relevance env answer question).relevance_score ∧
    (_analyze_relevance env answer question).relevance_score ≤ 100 := by
  unfold _analyze_relevance
  refine ⟨pyRound_nonneg (le_min (by norm_num) ?_), pyRound_le_hundred _ (min_le_left _ _)⟩
  apply mul_nonneg ?_ (by norm_num)
  split_ifs
  · positivity
  · norm_num

lemma clarity_bounds (env : NLPEnv) (text : String) :
    0 ≤ (_analyze_clarity env text).clarity_score ∧
    (_analyze_clarity env text).clarity_score ≤ 100 :=
  ⟨clamp_nonneg _, clamp_le_hundred _⟩

lemma sentiment_bounds (env : NLPEnv) (text : String) :
    0 ≤ (_analyze_sentiment env text).confidence_level ∧
    (_analyze_sentiment env text).confidence_level ≤ 100 :=
  ⟨pyRound_nonneg (clamp_nonneg _), pyRound_le_hundred _ (clamp_le_hundred _)⟩

lemma professionalism_bounds (text : String) :
    0 ≤ (_analyze_professionalism text).professionalism_score ∧
    (_analyze_professionalism text).professionalism_score ≤ 100 :=
  ⟨clamp_nonneg _, clamp_le_hundred _⟩

lemma speech_bounds (env : NLPEnv) (text : String) (duration : ℚ) :
    0 ≤ (_analyze_speech_features env text duration).fluency_score ∧
    (_analyze_speech_features env text duration).fluency_score ≤ 100 :=
  ⟨clamp_nonneg _, clamp_le_hundred _⟩

lemma facial_bounds (video_data : Option VideoData) :
    ∀ c, (_analyze_facial_expressions video_data).confidence_level = some c →
      0 ≤ c ∧ c ≤ 100 := by
  intro c hc
  cases video_data with
  | none =>
    have : c = 70 := by simpa [_analyze_facial_expressions] using hc.symm
    subst this
    norm_num
  | some vd =>
    simp only [_analyze_facial_expressions, Option.some.injEq] at hc
    subst hc
    exact ⟨pyRound_nonneg (clamp_nonneg _), pyRound_le_hundred _ (clamp_le_hundred _)⟩

lemma calculate_overall_bounds (a : Analysis)
    (h1 : 0 ≤ a.content_quality.quality_score ∧ a.content_quality.quality_score ≤ 100)
    (h2 : 0 ≤ a.relevance.relevance_score ∧ a.relevance.relevance_score ≤ 100)
    (h3 : 0 ≤ a.clarity.clarity_score ∧ a.clarity.clarity_score ≤ 100)
    (h4 : 0 ≤ a.sentiment.confidence_level ∧ a.sentiment.confidence_level ≤ 100)
    (h5 : 0 ≤ a.professionalism.professionalism_score ∧
      a.professionalism.professionalism_score ≤ 100)
    (h6 : ∀ sp, a.speech_features = some sp →
      0 ≤ sp.fluency_score ∧ sp.fluency_score ≤ 100)
    (h7 : ∀ f c, a.facial_expressions = some f → f.confidence_level = some c →
      0 ≤ c ∧ c ≤ 100) :
    0 ≤ _calculate_overall_score a ∧ _calculate_overall_score a ≤ 100 := by
  have hsp : 0 ≤ bundleScore a "speech" ∧ bundleScore a "speech" ≤ 100 := by
    have heq : bundleScore a "speech" =
        (match a.speech_features with
         | none => (70 : ℚ)
         | some speech => speech.fluency_score) := rfl
    rw [heq]
    cases hsf : a.speech_features with
    | none => norm_num
    | some sp => exact h6 sp hsf
  have hfa : 0 ≤ bundleScore a "facial" ∧ bundleScore a "facial" ≤ 100 := by
    have heq : bundleScore a "facial" =
        (match a.facial_expressions with
         | none => (70 : ℚ)
         | some facial => facial.confidence_level.getD 70) := rfl
    rw [heq]
    cases hf : a.facial_expressions with
    | none => norm_num
    | some f =>
      cases hc : f.confidence_level with
      | none => norm_num [hc]
      | some c =>
        simpa [hc] using h7 f c hf hc
  have e1 : bundleScore a "content_quality" = a.content_quality.quality_score := rfl
  have e2 : bundleScore a "relevance" = a.relevance.relevance_score := rfl
  have e3 : bundleScore a "clarity" = a.clarity.clarity_score := rfl
  have e4 : bundleScore a "sentiment" = a.sentiment.confidence_level := rfl
  have e5 : bundleScore a "professionalism" = a.professionalism.professionalism_score := rfl
  have hsum : _calculate_overall_score a = pyRound
      (bundleScore a "content_quality" * (25/100) +
       (bundleScore a "relevance" * (20/100) +
        (bundleScore a "clarity" * (15/100) +
         (bundleScore a "sentiment" * (10/100) +
          (bundleScore a "professionalism" * (10/100) +
           (bundleScore a "speech" * (15/100) +
            (bundleScore a "facial" * (5/100) + 0))))))) 1 := rfl
  rw [hsum, e1, e2, e3, e4, e5]
  constructor
  · apply pyRound_nonneg
    nlinarith [h1.1, h2.1, h3.1, h4.1, h5.1, hsp.1, hfa.1]
  · apply pyRound_le_hundred
    nlinarith [h1.2, h2.2, h3.2, h4.2, h5.2, hsp.2, hfa.2]

/-- C1: for every answer text, question, optional video signal and duration
(and every behaviour of the external NLP collaborators), every designated
score field produced by `analyze_answer` — content quality, relevance,
clarity, sentiment confidence, professionalism, speech fluency, facial
confidence, and the overall score — lies in the closed interval [0, 100]. -/
theorem c1_all_scores_clamped (env : NLPEnv) (answer question : String)
    (video_data : Option VideoData) (audio_duration : ℚ) :
    scoreFieldsInRange (analyze_answer env answer question video_data audio_duration) := by
  by_cases hb : isBlank answer
  · unfold analyze_answer
    rw [if_pos hb]
    refine ⟨⟨by norm_num [_get_empty_analysis], by norm_num [_get_empty_analysis]⟩,
      ⟨by norm_num [_get_empty_analysis], by norm_num [_get_empty_analysis]⟩,
      ⟨by norm_num [_get_empty_analysis], by norm_num [_get_empty_analysis]⟩,
      ⟨by norm_num [_get_empty_analysis], by norm_num [_get_empty_analysis]⟩,
      ⟨by norm_num [_get_empty_analysis], by norm_num [_get_empty_analysis]⟩, ?_, ?_,
      ⟨by norm_num [_get_empty_analysis], by norm_num [_get_empty_analysis]⟩⟩
    · intro sp hsp
      simp only [_get_empty_analysis, Option.some.injEq] at hsp
      subst hsp
      norm_num
    · intro f c hf hc
      simp only [_get_empty_analysis, Option.some.injEq] at hf
      subst hf
      simp only [facialEmpty, Option.some.injEq] at hc
      subst hc
      norm_num
  · unfold analyze_answer
    rw [if_neg hb]
    have hspeech : ∀ sp,
        (analysisBase env answer question video_data audio_duration).speech_features
          = some sp → 0 ≤ sp.fluency_score ∧ sp.fluency_score ≤ 100 := by
      intro sp hsp
      have : sp = _analyze_speech_features env answer audio_duration := by
        simpa [analysisBase] using hsp.symm
      subst this
      exact speech_bounds _ _ _
    have hfacial : ∀ f c,
        (analysisBase env answer question video_data audio_duration).facial_expressions
          = some f → f.confidence_level = some c → 0 ≤ c ∧ c ≤ 100 := by
      intro f c hf hc
      have hfe : f = (if video_data.isSome then _analyze_facial_expressions video_data
          else facialEmpty) := by
        simpa [analysisBase] using hf.symm
      subst hfe
      split_ifs at hc with hv
      · exact facial_bounds video_data c hc
      · simp [facialEmpty] at hc
    exact ⟨contentQuality_bounds answer question, relevance_bounds env answer question,
      clarity_bounds env answer, sentiment_bounds env answer,
      professionalism_bounds answer, hspeech, hfacial,
      calculate_overall_bounds (analysisBase env answer question video_data audio_duration)
        (contentQuality_bounds answer question) (relevance_bounds env answer question)
        (clarity_bounds env answer) (sentiment_bounds env answer)
        (professionalism_bounds answer) hspeech hfacial⟩

/-- C3: for every question, video signal and duration, a blank (empty or
whitespace-only) answer makes `analyze_answer` return the zeroed placeholder
bundle `_get_empty_analysis`, whose designated score fields and overall
score are all 0. -/
theorem c3_blank_answer_short_circuit (env : NLPEnv) (answer question : String)
    (video_data : Option VideoData) (audio_duration : ℚ)
    (h : isBlank answer = true) :
    analyze_answer env answer question video_data audio_duration = _get_empty_analysis ∧
    zeroedBundle _get_empty_analysis := by
  constructor
  · unfold analyze_answer
    rw [if_pos h]
  · refine ⟨rfl, rfl, rfl, rfl, rfl, ?_, ?_, rfl⟩
    · intro sp hsp
      simp only [_get_empty_analysis, Option.some.injEq] at hsp
      subst hsp
      rfl
    · intro f hf
      simp only [_get_empty_analysis, Option.some.injEq] at hf
      subst hf
      rfl

/-- Witness for C3 at the concrete whitespace-only answer made of three
spaces. -/
theorem c3_blank_answer_short_circuit_witness :
    isBlank "   " = true ∧
    (analyze_answer sampleEnv "   " "Tell me about yourself" none 0 = _get_empty_analysis ∧
     zeroedBundle _get_empty_analysis) :=
  ⟨by decide, c3_blank_answer_short_circuit sampleEnv "   " "Tell me about yourself" none 0
    (by decide)⟩

/-- C2 counterexample: on the zeroed placeholder bundle produced for an empty
answer, `get_feedback` raises a `KeyError` (the placeholder's
`speech_features` dict lacks `filler_word_count`), so it is not
exception-free on every bundle produced by `analyze_answer`. -/
theorem c2_counterexample_empty_bundle_raises :
    get_feedback (analyze_answer sampleEnv "" "Tell me about yourself" none 0)
      = Except.error "KeyError: filler_word_count" := rfl

lemma get_feedback_ok_of_populated (a : Analysis) (sp : SpeechFeatures)
    (hsp : a.speech_features = some sp)
    (h1 : sp.filler_word_count.isSome = true)
    (h2 : sp.stuttering_instances.isSome = true)
    (h3 : sp.speaking_pace.isSome = true) :
    ∃ l, get_feedback a = Except.ok l ∧ 1 ≤ l.length ∧ l.length ≤ 5 := by
  obtain ⟨fc, hfc⟩ := Option.isSome_iff_exists.mp h1
  obtain ⟨st, hst⟩ := Option.isSome_iff_exists.mp h2
  obtain ⟨pc, hpc⟩ := Option.isSome_iff_exists.mp h3
  unfold get_feedback
  simp only [hsp, hfc, hst, hpc, req, Except.bind, bind, pure, Except.pure]
  exact ⟨_, rfl, (truncateFeedback_bounds _).1, (truncateFeedback_bounds _).2⟩

/-- C2 amended: for every bundle produced by `analyze_answer` from a
non-blank answer, `get_feedback` returns (without raising) a list of at
least 1 and at most 5 strings; the zeroed placeholder bundle for a blank
answer instead raises `KeyError`. -/
theorem c2_feedback_bounds (env : NLPEnv) (answer question : String)
    (video_data : Option VideoData) (audio_duration : ℚ)
    (h : isBlank answer = false) :
    ∃ l, get_feedback (analyze_answer env answer question video_data audio_duration)
        = Except.ok l ∧ 1 ≤ l.length ∧ l.length ≤ 5 := by
  apply get_feedback_ok_of_populated _ (_analyze_speech_features env answer audio_duration)
  · unfold analyze_answer
    rw [if_neg (by simp [h])]
    rfl
  · rfl
  · rfl
  · rfl

/-- Witness for C2 (amended) at a concrete non-blank answer. -/
theorem c2_feedback_bounds_witness :
    isBlank "I enjoy solving problems" = false ∧
    ∃ l, get_feedback (analyze_answer sampleEnv "I enjoy solving problems"
        "Tell me about yourself" none 0) = Except.ok l ∧ 1 ≤ l.length ∧ l.length ≤ 5 :=
  ⟨by decide, c2_feedback_bounds sampleEnv "I enjoy solving problems"
    "Tell me about yourself" none 0 (by decide)⟩

/-- C4 counterexample: with no video signal, the `facial_expressions` part of
the bundle is the empty dict, which differs from the fixed neutral defaults
that `_analyze_facial_expressions` would return — `analyze_answer` never
calls the facial scorer when `video_data` is falsy. -/
theorem c4_counterexample_facial_is_empty_dict :
    (analyze_answer sampleEnv "I enjoy coding" "Tell me about yourself" none 0).facial_expressions
      = some facialEmpty ∧
    facialEmpty ≠ _analyze_facial_expressions none := by
  constructor
  · rfl
  · decide

/-- C4 amended: for every non-blank answer analysed with no video signal,
the facial part of the bundle is the empty dict (not the neutral defaults);
the fixed neutral defaults `{confidence_level: 70, nervousness: moderate,
eye_contact: good, expressions: neutral}` are what the facial scorer itself
returns when invoked without a signal, and the aggregator reads the missing
facial confidence as the neutral 70. -/
theorem c4_facial_empty_dict_not_defaults (env : NLPEnv) (answer question : String)
    (audio_duration : ℚ) (h : isBlank answer = false) :
    (analyze_answer env answer question none audio_duration).facial_expressions
      = some facialEmpty ∧
    _analyze_facial_expressions none =
      { confidence_level := some 70, nervousness := some "moderate",
        eye_contact := some "good", expressions := some "neutral",
        eye_contact_percentage := none, dominant_emotion := none,
        engagement_score := none } ∧
    bundleScore (analyze_answer env answer question none audio_duration) "facial" = 70 := by
  have hb : ¬(isBlank answer = true) := by simp [h]
  refine ⟨?_, rfl, ?_⟩
  · unfold analyze_answer
    rw [if_neg hb]
    rfl
  · unfold analyze_answer
    rw [if_neg hb]
    rfl

/-- Witness for C4 (amended) at a concrete non-blank answer. -/
theorem c4_facial_empty_dict_not_defaults_witness :
    isBlank "I enjoy coding" = false ∧
    ((analyze_answer sampleEnv "I enjoy coding" "Tell me about yourself" none 0).facial_expressions
      = some facialEmpty ∧
    _analyze_facial_expressions none =
      { confidence_level := some 70, nervousness := some "moderate",
        eye_contact := some "good", expressions := some "neutral",
        eye_contact_percentage := none, dominant_emotion := none,
        engagement_score := none } ∧
    bundleScore (analyze_answer sampleEnv "I enjoy coding" "Tell me about yourself" none 0)
      "facial" = 70) :=
  ⟨by decide, c4_facial_empty_dict_not_defaults sampleEnv "I enjoy coding"
    "Tell me about yourself" 0 (by decide)⟩

lemma calculate_overall_eq_spec (a : Analysis) :
    _calculate_overall_score a = specOverallFormula a := by
  have hsum : _calculate_overall_score a = pyRound
      (bundleScore a "content_quality" * (25/100) +
       (bundleScore a "relevance" * (20/100) +
        (bundleScore a "clarity" * (15/100) +
         (bundleScore a "sentiment" * (10/100) +
          (bundleScore a "professionalism" * (10/100) +
           (bundleScore a "speech" * (15/100) +
            (bundleScore a "facial" * (5/100) + 0))))))) 1 := rfl
  have e1 : bundleScore a "content_quality" = a.content_quality.quality_score := rfl
  have e2 : bundleScore a "relevance" = a.relevance.relevance_score := rfl
  have e3 : bundleScore a "clarity" = a.clarity.clarity_score := rfl
  have e4 : bundleScore a "sentiment" = a.sentiment.confidence_level := rfl
  have e5 : bundleScore a "professionalism" = a.professionalism.professionalism_score := rfl
  have e6 : bundleScore a "speech" =
      (match a.speech_features with
       | none => (70 : ℚ)
       | some sp => sp.fluency_score) := rfl
  have e7 : bundleScore a "facial" =
      (match a.facial_expressions with
       | none => (70 : ℚ)
       | some f => f.confidence_level.getD 70) := rfl
  rw [hsum, e1, e2, e3, e4, e5, e6, e7]
  unfold specOverallFormula
  congr 1
  ring

/-- C5: for every bundle produced for a non-blank answer, the overall score
equals the weighted sum .25 content + .20 relevance + .15 clarity +
.10 sentiment confidence + .15 speech fluency + .10 professionalism +
.05 facial confidence (speech/facial defaulting to 70 when absent), rounded
to 1 decimal; and a bundle whose seven sub-scores are all 80 gets overall
score 80. -/
theorem c5_overall_weighted_sum (env : NLPEnv) (answer question : String)
    (video_data : Option VideoData) (audio_duration : ℚ)
    (h : isBlank answer = false) :
    (analyze_answer env answer question video_data audio_duration).overall_score =
      specOverallFormula (analyze_answer env answer question video_data audio_duration) ∧
    _calculate_overall_score allEightyBundle = 80 := by
  have hb : ¬(isBlank answer = true) := by simp [h]
  constructor
  · unfold analyze_answer
    rw [if_neg hb]
    exact calculate_overall_eq_spec
      (analysisBase env answer question video_data audio_duration)
  · norm_num [_calculate_overall_score, overallWeights, bundleScore, allEightyBundle,
      facialEmpty, pyRound, roundHalfEven]

/-- Witness for C5 at a concrete non-blank answer. -/
theorem c5_overall_weighted_sum_witness :
    isBlank "I improved the process" = false ∧
    ((analyze_answer sampleEnv "I improved the process" "What did you do" none 0).overall_score =
      specOverallFormula (analyze_answer sampleEnv "I improved the process" "What did you do" none 0) ∧
    _calculate_overall_score allEightyBundle = 80) :=
  ⟨by decide, c5_overall_weighted_sum sampleEnv "I improved the process" "What did you do"
    none 0 (by decide)⟩

/-- C6: for every answer text that tokenizes to at least one word and every
duration, the speech fluency score follows the claimed deduction formula,
with the rate known exactly when the duration is positive. -/
theorem c6_fluency_formula (env : NLPEnv) (text : String) (duration : ℚ)
    (hw : env.word_tokenize (pyLower text) ≠ []) :
    (_analyze_speech_features env text duration).fluency_score =
      specFluencyFormula env text duration := by
  have hlen : 0 < (env.word_tokenize (pyLower text)).length := List.length_pos.mpr hw
  have hlenQ : (0:ℚ) < ((env.word_tokenize (pyLower text)).length : ℚ) := by
    exact_mod_cast hlen
  simp only [_analyze_speech_features, specFluencyFormula]
  set R : ℚ := ((env.word_tokenize (pyLower text)).length : ℚ) / duration * 60 with hR
  by_cases hd : (0:ℚ) < duration
  · have hrate : 0 < R := by
      rw [hR]
      exact mul_pos (div_pos hlenQ hd) (by norm_num)
    rw [if_pos hd, if_pos hrate]
    by_cases h1 : R < 100
    · rw [if_pos h1, if_pos (show 0 < duration ∧ R < 100 from ⟨hd, h1⟩),
        if_neg (show ¬(0 < duration ∧ 200 < R) from fun h => absurd h.2 (by linarith))]
      congr 1
      congr 1
      ring
    · rw [if_neg h1, if_neg (show ¬(0 < duration ∧ R < 100) from fun h => h1 h.2)]
      by_cases h2 : 200 < R
      · rw [if_pos h2, if_pos (show 0 < duration ∧ 200 < R from ⟨hd, h2⟩)]
        congr 1
        congr 1
        ring
      · rw [if_neg h2, if_neg (show ¬(0 < duration ∧ 200 < R) from fun h => h2 h.2)]
        congr 1
        congr 1
        ring
  · rw [if_neg hd, if_neg (lt_irrefl (0:ℚ)),
      if_neg (show ¬(0 < duration ∧ R < 100) from fun h => hd h.1),
      if_neg (show ¬(0 < duration ∧ 200 < R) from fun h => hd h.1)]
    congr 1
    congr 1
    ring

/-- Witness for C6 at a concrete answer and duration. -/
theorem c6_fluency_formula_witness :
    sampleEnv.word_tokenize (pyLower "hello there everyone") ≠ [] ∧
    (_analyze_speech_features sampleEnv "hello there everyone" 1).fluency_score =
      specFluencyFormula sampleEnv "hello there everyone" 1 :=
  ⟨by decide, c6_fluency_formula sampleEnv "hello there everyone" 1 (by decide)⟩

/-- C7 counterexample: the concrete answer has exactly 4 filler occurrences,
exactly 1 adjacent repeated-word stutter, and exactly one literal three-dot
ellipsis (so each of `count("...")` and `count("..")` is 1), yet with
duration 0 the fluency score is 60, not the claimed 65 — the lone ellipsis
yields `pause_indicators = 2`, so the pause deduction is 10, not 5. -/
theorem c7_counterexample_ellipsis_double_count :
    (filler_words.map
      (fun f => pyCount (pyLower "that that code runs... um and um and um and um") f)).sum = 4 ∧
    sampleEnv.findall_stutter (pyLower "that that code runs... um and um and um and um") = 1 ∧
    pyCount "that that code runs... um and um and um and um" "..." = 1 ∧
    pyCount "that that code runs... um and um and um and um" ".." = 1 ∧
    (_analyze_speech_features sampleEnv
      "that that code runs... um and um and um and um" 0).fluency_score = 60 ∧
    (_analyze_speech_features sampleEnv
      "that that code runs... um and um and um and um" 0).fluency_score ≠ 65 := by
  have h60 : (_analyze_speech_features sampleEnv
      "that that code runs... um and um and um and um" 0).fluency_score = 60 := by
    have hf : (filler_words.map
        (fun f => pyCount (pyLower "that that code runs... um and um and um and um") f)).sum
          = 4 := by decide
    have hs : sampleEnv.findall_stutter
        (pyLower "that that code runs... um and um and um and um") = 1 := by decide
    have hp3 : pyCount "that that code runs... um and um and um and um" "..." = 1 := by decide
    have hp2 : pyCount "that that code runs... um and um and um and um" ".." = 1 := by decide
    simp only [_analyze_speech_features]
    rw [hf, hs, hp3, hp2]
    norm_num
  refine ⟨by decide, by decide, by decide, by decide, h60, ?_⟩
  rw [h60]
  norm_num

/-- C7 amended: an answer with exactly 4 filler occurrences, exactly 1
stutter, and exactly one literal ellipsis (hence pause counts 1 and 1,
double-counting the two-dot run inside it), analysed with duration 0, gets
fluency 100 - 20 - 10 - 10 = 60. -/
theorem c7_fluency_sixty (env : NLPEnv) (text : String)
    (hf : (filler_words.map (fun f => pyCount (pyLower text) f)).sum = 4)
    (hs : env.findall_stutter (pyLower text) = 1)
    (hp3 : pyCount text "..." = 1) (hp2 : pyCount text ".." = 1) :
    (_analyze_speech_features env text 0).fluency_score = 60 := by
  simp only [_analyze_speech_features]
  rw [hf, hs, hp3, hp2]
  norm_num

/-- Witness for C7 (amended) at the concrete counterexample text. -/
theorem c7_fluency_sixty_witness :
    (filler_words.map
      (fun f => pyCount (pyLower "that that code runs... um and um and um and um") f)).sum = 4 ∧
    (_analyze_speech_features sampleEnv
      "that that code runs... um and um and um and um" 0).fluency_score = 60 :=
  ⟨by decide, c7_fluency_sixty sampleEnv "that that code runs... um and um and um and um"
    (by decide) (by decide) (by decide) (by decide)⟩

/-- C8 counterexample: in a text containing the transition word `then`
twice, the analyzer's transition count is 1 (each transition word counts at
most once), not the 2 occurrences counted with multiplicity that the claim
asserts. -/
theorem c8_counterexample_transition_multiplicity :
    (_analyze_clarity sampleEnv "then again then").transition_words = some 1 ∧
    specTransitionOccurrences "then again then" = 2 ∧
    (_analyze_clarity sampleEnv "then again then").transition_words ≠
      some (specTransitionOccurrences "then again then") := by
  refine ⟨by decide, by decide, by decide⟩

/-- C8 amended: for every text, the transition count is the number of
*distinct* transition words of the fixed set that occur case-insensitively
as substrings; the clarity score is 60 plus min(count*8, 24), plus 16 when
the average sentence length is strictly between 10 and 25, minus 10 when it
is below 5, clamped to [0, 100]; and `has_structure` holds exactly when the
count is positive. -/
theorem c8_clarity_distinct_transitions (env : NLPEnv) (text : String) :
    (_analyze_clarity env text).transition_words =
      some (transitions.countP (fun t => pyIn t (pyLower text))) ∧
    (_analyze_clarity env text).clarity_score = specClarityScore env text ∧
    ((_analyze_clarity env text).has_structure = some true ↔
      0 < transitions.countP (fun t => pyIn t (pyLower text))) := by
  have hc : (transitions.map (fun t => if pyIn t (pyLower text) then 1 else 0)).sum
      = transitions.countP (fun t => pyIn t (pyLower text)) :=
    sum_ite_one_eq_countP _ _
  refine ⟨?_, ?_, ?_⟩
  · simp only [_analyze_clarity, hc]
  · simp only [_analyze_clarity, specClarityScore, hc]
    split_ifs <;> first | rfl | (congr 1; congr 1; ring)
  · simp only [_analyze_clarity, hc, Option.some.injEq, decide_eq_true_eq]

/-- C9: for every answer and question (over the sets of lowercase alphabetic
non-stop-word tokens), `keyword_overlap` is the size of the intersection,
the relevance score is the overlap ratio times 100 (or the fallback 50 for
a question with no content words) boosted by 1.5, clamped to 100 and rounded
to 1 decimal, and `directly_addresses_question` holds exactly when the
overlap is at least 30 percent of the question content-word count. -/
theorem c9_relevance_formula (env : NLPEnv) (answer question : String) :
    (_analyze_relevance env answer question).keyword_overlap =
      some ((relevanceWordSet env answer ∩ relevanceWordSet env question).card) ∧
    (_analyze_relevance env answer question).relevance_score =
      pyRound (min 100
        ((if (relevanceWordSet env question).card ≠ 0 then
            (((relevanceWordSet env answer ∩ relevanceWordSet env question).card : ℚ) /
              ((relevanceWordSet env question).card : ℚ)) * 100
          else 50) * (3/2))) 1 ∧
    ((_analyze_relevance env answer question).directly_addresses_question = some true ↔
      ((relevanceWordSet env question).card : ℚ) * (3/10) ≤
        ((relevanceWordSet env answer ∩ relevanceWordSet env question).card : ℚ)) := by
  refine ⟨rfl, rfl, ?_⟩
  simp only [_analyze_relevance, Option.some.injEq, decide_eq_true_eq]

/-- C10: whenever the question has no content words after stop-word and
non-alphabetic filtering, the relevance analyzer reports
`directly_addresses_question = true` (zero overlap meets the 30 percent
threshold of zero) and the fixed fallback relevance score 75. -/
theorem c10_empty_question_fallback (env : NLPEnv) (answer question : String)
    (hq : relevanceWordSet env question = ∅) :
    (_analyze_relevance env answer question).directly_addresses_question = some true ∧
    (_analyze_relevance env answer question).relevance_score = 75 := by
  constructor
  · simp only [_analyze_relevance, hq]
    norm_num
  · simp only [_analyze_relevance, hq]
    norm_num [pyRound, roundHalfEven]

/-- Witness for C10 at the concrete empty question. -/
theorem c10_empty_question_fallback_witness :
    relevanceWordSet sampleEnv "" = ∅ ∧
    ((_analyze_relevance sampleEnv "I have experience" "").directly_addresses_question
        = some true ∧
      (_analyze_relevance sampleEnv "I have experience" "").relevance_score = 75) :=
  ⟨by decide, c10_empty_question_fallback sampleEnv "I have experience" "" (by decide)⟩

end InterviewAnalysis
